import Mathlib

/-!
Verification of the insurance underwriting core (`underwriting_tool.py`).

This file gives a shallow embedding of the underwriting pipeline: the
applicant data model, the external-verification adapter, the rule engine,
the risk scorer, the premium calculator and the decision composer, and
proves the stated behavioural properties about them.

Python floats are modelled by exact rationals (`ℚ`); Python ints by `ℤ`
or `ℕ` (for fields that the validated model constrains to be
non-negative).  The randomness of the simulated external API is modelled
by an explicit `variance` argument, and its exception path by an
explicit `fails` flag.  Input validation (declared through pydantic
field constraints plus an after-model validator in the source) is
modelled by an explicit two-phase validator: field-range violations are
collected into a list, and the type-specific after-validator runs only
when no field violation exists, mirroring pydantic v2 semantics of
the pydantic v2 after-model validator.
-/

-- ==================== Enums ====================

/-- Underwriting decision types (`UnderwritingDecision` in the source). -/
inductive UnderwritingDecision where
  | approved
  | approved_with_conditions
  | declined
  | refer_to_manual_review
deriving DecidableEq, Repr

/-- Risk level categories (`RiskLevel` in the source). -/
inductive RiskLevel where
  | low
  | medium
  | high
  | very_high
deriving DecidableEq, Repr

/-- Insurance types (`InsuranceType` in the source). -/
inductive InsuranceType where
  | auto
  | home
  | life
  | health
deriving DecidableEq, Repr

/-- Employment status literal values of the `employment_status` field. -/
inductive EmploymentStatus where
  | employed
  | self_employed
  | unemployed
  | retired
deriving DecidableEq, Repr

/-- Construction type literal values of `PropertyInfo.construction_type`. -/
inductive ConstructionType where
  | wood
  | brick
  | concrete
  | mixed
deriving DecidableEq, Repr

-- ==================== Validated data model ====================

/-- Driving record information (`DrivingRecord`); every count field is
declared `ge=0` in the source, so it is modelled by `ℕ`. -/
structure DrivingRecord where
  years_licensed : ℕ
  accidents_last_5_years : ℕ
  violations_last_3_years : ℕ
  dui_history : Bool
  license_suspended : Bool
deriving DecidableEq, Repr

/-- Insurance claims history (`ClaimsHistory`). -/
structure ClaimsHistory where
  total_claims : ℕ
  claims_last_3_years : ℕ
  total_claimed_amount : ℚ
  fraud_indicators : Bool
deriving DecidableEq, Repr

/-- Property information for home insurance (`PropertyInfo`).  The field
`fire_protection_class` of the source is renamed `fire_protection_cls`. -/
structure PropertyInfo where
  property_age : ℕ
  construction_type : ConstructionType
  security_system : Bool
  fire_protection_cls : ℕ
  flood_zone : Bool
deriving DecidableEq, Repr

/-- Complete applicant data for underwriting (`ApplicantData`). -/
structure ApplicantData where
  applicant_id : String
  name : String
  age : ℕ
  credit_score : ℤ
  annual_income : ℚ
  employment_status : EmploymentStatus
  insurance_type : InsuranceType
  coverage_amount : ℚ
  claims_history : ClaimsHistory
  driving_record : Option DrivingRecord
  property_info : Option PropertyInfo
  smoker : Option Bool
  pre_existing_conditions : Option Bool
deriving DecidableEq, Repr

/-- Range constraint `ge=1, le=10` on `fire_protection_class`, for the
property info when present. -/
def propertyRangeOk (a : ApplicantData) : Bool :=
  match a.property_info with
  | none => true
  | some p => decide (1 ≤ p.fire_protection_cls) && decide (p.fire_protection_cls ≤ 10)

/-- The type-specific presence requirements that the after-model validator
`validate_type_specific_data` enforces. -/
def typeSpecificOk (a : ApplicantData) : Bool :=
  match a.insurance_type with
  | InsuranceType.auto => a.driving_record.isSome
  | InsuranceType.home => a.property_info.isSome
  | InsuranceType.life => a.smoker.isSome
  | InsuranceType.health => a.smoker.isSome

/-- The pydantic range constraints on `ApplicantData` that are not already
forced by the `ℕ` field types of this embedding. -/
def ApplicantData.Valid (a : ApplicantData) : Prop :=
  2 ≤ a.name.length ∧ 18 ≤ a.age ∧ a.age ≤ 100 ∧
  300 ≤ a.credit_score ∧ a.credit_score ≤ 850 ∧
  0 ≤ a.annual_income ∧ 0 ≤ a.coverage_amount ∧
  0 ≤ a.claims_history.total_claimed_amount ∧
  propertyRangeOk a = true ∧ typeSpecificOk a = true

instance (a : ApplicantData) : Decidable a.Valid := by
  unfold ApplicantData.Valid; infer_instance

-- ==================== String matching helpers ====================

/-- Python `str.lower()` restricted to the ASCII strings the tool uses. -/
def lowerStr (s : String) : String := String.mk (s.toList.map Char.toLower)

/-- Helper for substring search over character lists. -/
def containsSub : List Char → List Char → Bool
  | [], pat => pat.isEmpty
  | c :: rest, pat => List.isPrefixOf pat (c :: rest) || containsSub rest pat

/-- Python substring containment `pat in s`. -/
def strContains (s pat : String) : Bool := containsSub s.toList pat.toList

-- ==================== External API integration ====================

/-- Result dictionary of `ExternalDataAPI.verify_credit_score`.  Fields that
are present only in one of the two return dictionaries are `Option`s. -/
structure CreditVerification where
  status : String
  verified : Bool
  reported_score : Option ℤ
  actual_score : Option ℤ
  score_difference : Option ℤ
  source : Option String
  fallback : Option String
deriving DecidableEq, Repr

/-- `ExternalDataAPI.verify_credit_score`, with the random draw
`np.random.randint(-20, 20)` modelled by the explicit argument `variance`
and the exception path of the `try`/`except` modelled by `fails`. -/
def verify_credit_score (reported_score : ℤ) (variance : ℤ) (fails : Bool) :
    CreditVerification :=
  if fails then
    { status := "error", verified := false, reported_score := none,
      actual_score := none, score_difference := none, source := none,
      fallback := some "Using self-reported score" }
  else
    let actual_score := max 300 (min 850 (reported_score + variance))
    { status := "success", verified := true,
      reported_score := some reported_score,
      actual_score := some actual_score,
      score_difference := some |actual_score - reported_score|,
      source := some "Experian (Simulated)", fallback := none }

/-- The set of variances `np.random.randint(-20, 20)` can draw (the upper
bound of `randint` is exclusive). -/
def DrawableVariance (v : ℤ) : Prop := -20 ≤ v ∧ v < 20

/-- Result dictionary of `ExternalDataAPI.fetch_driving_record`, with the
exception path modelled by the caller-supplied `fails` flag. -/
structure DMVRecord where
  status : String
  data_available : Bool
  additional_violations : ℕ
  source : Option String
deriving DecidableEq, Repr

/-- `ExternalDataAPI.fetch_driving_record`; `extra` models the random
`additional_violations` draw and `fails` the exception path. -/
def fetch_driving_record (fails : Bool) (extra : ℕ) : DMVRecord :=
  if fails then
    { status := "error", data_available := false,
      additional_violations := 0, source := none }
  else
    { status := "success", data_available := true,
      additional_violations := extra, source := some "DMV (Simulated)" }

/-- The `external_data` dictionary assembled by
`UnderwritingTool._verify_external_data`. -/
structure ExternalData where
  credit_verified : Bool
  driving_verified : Bool
  credit_data : Option CreditVerification
  dmv_data : Option DMVRecord
  external_sources : List String
deriving DecidableEq, Repr

/-- `UnderwritingTool._verify_external_data`; the random draws and
exception paths of both simulated API calls are explicit arguments. -/
def verify_external_data (a : ApplicantData) (variance : ℤ)
    (creditFails : Bool) (dmvFails : Bool) (extra : ℕ) : ExternalData :=
  let credit_data := verify_credit_score a.credit_score variance creditFails
  let base : ExternalData :=
    { credit_verified := credit_data.verified, driving_verified := false,
      credit_data := some credit_data, dmv_data := none,
      external_sources :=
        match credit_data.source with
        | some s => [s]
        | none => [] }
  if a.insurance_type = InsuranceType.auto then
    let dmv_data := fetch_driving_record dmvFails extra
    { base with
      driving_verified := dmv_data.data_available,
      dmv_data := some dmv_data,
      external_sources := base.external_sources ++
        (match dmv_data.source with
         | some s => [s]
         | none => []) }
  else base

/-- The credit score the rule engine works with (lines 527-529 of the
source): the externally verified score when `credit_verified` holds and
credit data carrying an `actual_score` is present, else the self-reported
score. -/
def effectiveCreditScore (a : ApplicantData) (e : ExternalData) : ℤ :=
  if e.credit_verified then
    match e.credit_data with
    | some cd => cd.actual_score.getD a.credit_score
    | none => a.credit_score
  else a.credit_score

-- ==================== Rule engine ====================

/-- The `(passed, failed, risk_factors, auto_decline)` quadruple that each
rule of `UnderwritingRuleEngine` contributes. -/
structure SubRules where
  passed : List String
  failed : List String
  risk_factors : List String
  auto_decline : Bool
deriving DecidableEq, Repr

/-- `UnderwritingRuleEngine._evaluate_auto_rules`. -/
def evaluate_auto_rules (a : ApplicantData) : SubRules :=
  match a.driving_record with
  | none => ⟨[], [], [], false⟩
  | some dr =>
    let duiR : SubRules :=
      if dr.dui_history then
        ⟨[], ["DUI/DWI history present"], ["DUI history"], true⟩
      else ⟨["No DUI/DWI history"], [], [], false⟩
    let suspR : SubRules :=
      if dr.license_suspended then
        ⟨[], ["License suspension history"], ["License suspended"], false⟩
      else ⟨[], [], [], false⟩
    let accR : SubRules :=
      if dr.accidents_last_5_years > 3 then
        ⟨[], ["Excessive accidents (>3 in 5 years)"], ["High accident rate"], false⟩
      else if dr.accidents_last_5_years > 1 then
        ⟨[], [], ["Multiple accidents"], false⟩
      else ⟨["Acceptable accident history"], [], [], false⟩
    let vioR : SubRules :=
      if dr.violations_last_3_years > 5 then
        ⟨[], ["Excessive violations (>5 in 3 years)"], ["Multiple traffic violations"], false⟩
      else if dr.violations_last_3_years > 2 then
        ⟨[], [], ["Several traffic violations"], false⟩
      else ⟨["Acceptable violation history"], [], [], false⟩
    let expR : SubRules :=
      if dr.years_licensed < 2 then
        ⟨[], [], ["Limited driving experience"], false⟩
      else ⟨["Adequate driving experience"], [], [], false⟩
    ⟨duiR.passed ++ suspR.passed ++ accR.passed ++ vioR.passed ++ expR.passed,
     duiR.failed ++ suspR.failed ++ accR.failed ++ vioR.failed ++ expR.failed,
     duiR.risk_factors ++ suspR.risk_factors ++ accR.risk_factors ++
       vioR.risk_factors ++ expR.risk_factors,
     duiR.auto_decline⟩

/-- `UnderwritingRuleEngine._evaluate_home_rules`. -/
def evaluate_home_rules (a : ApplicantData) : SubRules :=
  match a.property_info with
  | none => ⟨[], [], [], false⟩
  | some prop =>
    let ageR : SubRules :=
      if prop.property_age > 50 then
        ⟨[], [], ["Old property (>50 years)"], false⟩
      else ⟨[], [], [], false⟩
    let conR : SubRules :=
      if prop.construction_type = ConstructionType.wood then
        ⟨[], [], ["Wood construction - fire risk"], false⟩
      else ⟨["Durable construction type"], [], [], false⟩
    let secR : SubRules :=
      if prop.security_system then
        ⟨["Security system installed"], [], [], false⟩
      else ⟨[], [], ["No security system"], false⟩
    let fireR : SubRules :=
      if prop.fire_protection_cls > 7 then
        ⟨[], ["Poor fire protection class (>7)"], ["Limited fire protection"], false⟩
      else if prop.fire_protection_cls ≤ 4 then
        ⟨["Excellent fire protection"], [], [], false⟩
      else ⟨[], [], [], false⟩
    let floodR : SubRules :=
      if prop.flood_zone then
        ⟨[], [], ["Property in flood zone"], false⟩
      else ⟨[], [], [], false⟩
    ⟨ageR.passed ++ conR.passed ++ secR.passed ++ fireR.passed ++ floodR.passed,
     ageR.failed ++ conR.failed ++ secR.failed ++ fireR.failed ++ floodR.failed,
     ageR.risk_factors ++ conR.risk_factors ++ secR.risk_factors ++
       fireR.risk_factors ++ floodR.risk_factors,
     false⟩

/-- `UnderwritingRuleEngine._evaluate_health_rules`; Python truthiness of
the optional flags (`None` is falsy) is modelled by `Option.getD false`. -/
def evaluate_health_rules (a : ApplicantData) : SubRules :=
  let smokeR : SubRules :=
    if a.smoker.getD false then
      ⟨[], [], ["Smoker - increased health risk"], false⟩
    else ⟨["Non-smoker"], [], [], false⟩
  let preR : SubRules :=
    if a.pre_existing_conditions.getD false then
      ⟨[], [], ["Pre-existing health conditions"], false⟩
    else ⟨["No pre-existing conditions"], [], [], false⟩
  ⟨smokeR.passed ++ preR.passed, smokeR.failed ++ preR.failed,
   smokeR.risk_factors ++ preR.risk_factors, false⟩

/-- Result dictionary of `UnderwritingRuleEngine.evaluate_rules`. -/
structure RuleResults where
  rules_passed : List String
  rules_failed : List String
  risk_factors : List String
  auto_decline : Bool
  total_rules_evaluated : ℕ
deriving DecidableEq, Repr

/-- `UnderwritingRuleEngine.evaluate_rules`: the five-rule battery.  Each
rule contributes its `SubRules` chunk; the three report lists concatenate
the chunks in source order, and `auto_decline` is the disjunction of the
triggers (credit below 550, fraud indicators, DUI from the auto rules). -/
def evaluate_rules (a : ApplicantData) (e : ExternalData) : RuleResults :=
  let credit_score := effectiveCreditScore a e
  let rule1 : SubRules :=
    if credit_score < 550 then
      ⟨[], ["Credit score below minimum threshold (550)"], [], true⟩
    else if credit_score < 600 then
      ⟨[], ["Credit score in high-risk range (550-600)"], ["Low credit score"], false⟩
    else if credit_score < 700 then
      ⟨[], [], ["Below average credit score"], false⟩
    else ⟨["Credit score acceptable"], [], [], false⟩
  let fraudR : SubRules :=
    if a.claims_history.fraud_indicators then
      ⟨[], ["Fraud indicators present in claims history"], [], true⟩
    else ⟨[], [], [], false⟩
  let claimsR : SubRules :=
    if a.claims_history.claims_last_3_years > 3 then
      ⟨[], ["Excessive claims (>3 in last 3 years)"], ["High claims frequency"], false⟩
    else if a.claims_history.claims_last_3_years > 1 then
      ⟨[], [], ["Multiple recent claims"], false⟩
    else ⟨["Claims history acceptable"], [], [], false⟩
  let ageR : SubRules :=
    if a.age < 21 then ⟨[], [], ["Young applicant (under 21)"], false⟩
    else if a.age > 75 then ⟨[], [], ["Senior applicant (over 75)"], false⟩
    else ⟨["Age within standard range"], [], [], false⟩
  let typeR : SubRules :=
    match a.insurance_type with
    | InsuranceType.auto => evaluate_auto_rules a
    | InsuranceType.home => evaluate_home_rules a
    | InsuranceType.health => evaluate_health_rules a
    | InsuranceType.life => evaluate_health_rules a
  let coverR : SubRules :=
    if 0 < a.annual_income then
      let coverageRat := a.coverage_amount / a.annual_income
      if coverageRat > 10 then
        ⟨[], [], ["Coverage amount very high relative to income"], false⟩
      else if coverageRat > 5 then
        ⟨[], [], ["Coverage amount high relative to income"], false⟩
      else ⟨[], [], [], false⟩
    else ⟨[], [], [], false⟩
  let rules_passed := rule1.passed ++ fraudR.passed ++ claimsR.passed ++
    ageR.passed ++ typeR.passed ++ coverR.passed
  let rules_failed := rule1.failed ++ fraudR.failed ++ claimsR.failed ++
    ageR.failed ++ typeR.failed ++ coverR.failed
  let risk_factors := rule1.risk_factors ++ fraudR.risk_factors ++
    claimsR.risk_factors ++ ageR.risk_factors ++ typeR.risk_factors ++
    coverR.risk_factors
  { rules_passed := rules_passed, rules_failed := rules_failed,
    risk_factors := risk_factors,
    auto_decline := rule1.auto_decline || fraudR.auto_decline || typeR.auto_decline,
    total_rules_evaluated := rules_passed.length + rules_failed.length }

-- ==================== Classifier output ====================

/-- The fields of the classifier prediction dictionary that downstream
code consumes: `ml_available` and `prediction` (bucket 0, 1 or 2;
the prediction lookup defaults to 0). -/
structure MLResults where
  ml_available : Bool
  prediction : ℕ
deriving DecidableEq, Repr

-- ==================== Risk calculator ====================

/-- `RiskCalculator.BASE_PREMIUMS` (monthly base premium by type). -/
def BASE_PREMIUMS : InsuranceType → ℚ
  | InsuranceType.auto => 150
  | InsuranceType.home => 120
  | InsuranceType.life => 80
  | InsuranceType.health => 200

/-- The five weighted components that `calculate_risk_score` computes as
local variables, packaged in a record. -/
structure ScoreParts where
  credit : ℚ
  claims : ℚ
  age : ℚ
  rule : ℚ
  ml : ℚ
deriving DecidableEq, Repr

/-- The component computations of `RiskCalculator.calculate_risk_score`:
credit (0-30, from the self-reported score), claims (0-20), age (0-10),
rule-based (0-25) and ML (0-15). -/
def riskScoreParts (a : ApplicantData) (rule_results : RuleResults)
    (ml_results : MLResults) : ScoreParts :=
  { credit := max 0 (30 - ((a.credit_score : ℚ) - 300) / 550 * 30),
    claims := min 20 ((a.claims_history.claims_last_3_years : ℚ) * 5),
    age :=
      if a.age < 25 ∨ a.age > 70 then 10
      else if a.age < 30 ∨ a.age > 65 then 5
      else 0,
    rule := min 25 ((rule_results.risk_factors.length : ℚ) * 3 +
      (rule_results.rules_failed.length : ℚ) * 5),
    ml :=
      if ml_results.ml_available then (ml_results.prediction : ℚ) * 7.5
      else 0 }

/-- `RiskCalculator.calculate_risk_score`: the weighted component sum,
clamped to [0, 100]. -/
def calculate_risk_score (a : ApplicantData) (rule_results : RuleResults)
    (ml_results : MLResults) : ℚ :=
  let p := riskScoreParts a rule_results ml_results
  min 100 (max 0 (p.credit + p.claims + p.age + p.rule + p.ml))

/-- First surcharge keyword category of `calculate_premium`:
`"DUI" in factor or "fraud" in factor.lower()`. -/
def matchesDuiFraud (factor : String) : Bool :=
  strContains factor "DUI" || strContains (lowerStr factor) "fraud"

/-- Second surcharge keyword category:
`"accident" in factor.lower() or "claims" in factor.lower()`. -/
def matchesAccidentClaims (factor : String) : Bool :=
  strContains (lowerStr factor) "accident" || strContains (lowerStr factor) "claims"

/-- Third surcharge keyword category: `"credit" in factor.lower()`. -/
def matchesCredit (factor : String) : Bool :=
  strContains (lowerStr factor) "credit"

/-- The amount one loop iteration of the surcharge loop in
`RiskCalculator.calculate_premium` adds for one risk factor
(an `if`/`elif`/`elif` chain in the source). -/
def surchargeOfFactor (base_premium : ℚ) (factor : String) : ℚ :=
  if matchesDuiFraud factor then base_premium * 0.5
  else if matchesAccidentClaims factor then base_premium * 0.2
  else if matchesCredit factor then base_premium * 0.15
  else 0

/-- The per-category surcharges a single factor string matches, in the
order the source tests the categories.  (Used to express the
double-counting question: matching two categories would mean a
contribution equal to the sum of this list.) -/
def categorySurchargesMatched (base_premium : ℚ) (factor : String) : List ℚ :=
  (if matchesDuiFraud factor then [base_premium * 0.5] else []) ++
  (if matchesAccidentClaims factor then [base_premium * 0.2] else []) ++
  (if matchesCredit factor then [base_premium * 0.15] else [])

/-- Round-half-to-even on integers scaled from a rational, modelling
Python `round(x, 2)` (round half to even) exactly on the rationals. -/
def roundHalfEven (x : ℚ) : ℤ :=
  let f := ⌊x⌋
  if x - f < 1/2 then f
  else if x - f > 1/2 then f + 1
  else if f % 2 = 0 then f else f + 1

/-- Python `round(x, 2)`. -/
def round2 (x : ℚ) : ℚ := (roundHalfEven (x * 100) : ℚ) / 100

/-- The premium breakdown dictionary of `RiskCalculator.calculate_premium`. -/
structure PremiumInfo where
  base_premium : ℚ
  premium_with_risk : ℚ
  additional_premium : ℚ
  total_monthly_premium : ℚ
  total_annual_premium : ℚ
deriving DecidableEq, Repr

/-- `RiskCalculator.calculate_premium`: base premium by type, risk
multiplier `1 + (score/100)*2`, plus the keyword surcharge loop. -/
def calculate_premium (a : ApplicantData) (risk_score : ℚ)
    (risk_factors : List String) : PremiumInfo :=
  let base_premium := BASE_PREMIUMS a.insurance_type
  let risk_multiplier := 1 + risk_score / 100 * 2
  let premium_with_risk := base_premium * risk_multiplier
  let additional_premium :=
    risk_factors.foldl (fun acc factor => acc + surchargeOfFactor base_premium factor) 0
  let total_premium := premium_with_risk + additional_premium
  { base_premium := round2 base_premium,
    premium_with_risk := round2 premium_with_risk,
    additional_premium := round2 additional_premium,
    total_monthly_premium := round2 total_premium,
    total_annual_premium := round2 (total_premium * 12) }

-- ==================== Decision composer ====================

/-- The decision dictionary returned by `UnderwritingTool._make_decision`
and `_create_decline_decision`. -/
structure DecisionResult where
  decision : UnderwritingDecision
  risk_level : RiskLevel
  risk_score : ℚ
  approved : Bool
  decision_reasons : List String
  conditions : List String
  exclusions : List String
  premium_info : Option PremiumInfo
  credit_verified : Bool
  external_sources : List String
deriving DecidableEq, Repr

/-- The membership test
`decision in [UnderwritingDecision.APPROVED, UnderwritingDecision.APPROVED_WITH_CONDITIONS]`
used for the `approved` field. -/
def approvedOf : UnderwritingDecision → Bool
  | UnderwritingDecision.approved => true
  | UnderwritingDecision.approved_with_conditions => true
  | UnderwritingDecision.declined => false
  | UnderwritingDecision.refer_to_manual_review => false

/-- The exclusions one risk factor contributes in
`UnderwritingTool._determine_exclusions` (independent `if`s: one factor
can contribute several exclusions). -/
def exclusionsOfFactor (factor : String) : List String :=
  (if strContains (lowerStr factor) "accident" then
    ["Accident forgiveness not available"] else []) ++
  (if strContains (lowerStr factor) "violation" then
    ["Traffic violation surcharge waiver not available"] else []) ++
  (if strContains (lowerStr factor) "flood" then
    ["Flood damage excluded (separate flood insurance required)"] else []) ++
  (if strContains (lowerStr factor) "credit" then
    ["Premium payment plan restrictions may apply"] else [])

/-- `UnderwritingTool._determine_exclusions`; the `list(set(...))`
deduplication of the source is modelled by first-occurrence dedup (the
set iteration order of the source is unspecified). -/
def determine_exclusions (_a : ApplicantData) (rule_results : RuleResults) :
    List String :=
  ((rule_results.risk_factors.map exclusionsOfFactor).flatten).dedup

/-- `UnderwritingTool._create_decline_decision`. -/
def create_decline_decision (_a : ApplicantData) (risk_score : ℚ)
    (rule_results : RuleResults) : DecisionResult :=
  { decision := UnderwritingDecision.declined,
    risk_level := RiskLevel.very_high,
    risk_score := risk_score,
    approved := false,
    decision_reasons := "Application declined due to:" :: rule_results.rules_failed,
    conditions := [], exclusions := [], premium_info := none,
    credit_verified := false, external_sources := [] }

/-- The final dictionary assembly at the end of `_make_decision`
(lines 1072-1083): `approved` is recomputed from the decision, and the
verification fields are copied from the external data. -/
def finishDecision (decision : UnderwritingDecision) (risk_level : RiskLevel)
    (risk_score : ℚ) (decision_reasons conditions exclusions : List String)
    (premium_info : Option PremiumInfo) (external_data : ExternalData) :
    DecisionResult :=
  { decision := decision, risk_level := risk_level, risk_score := risk_score,
    approved := approvedOf decision,
    decision_reasons := decision_reasons, conditions := conditions,
    exclusions := exclusions, premium_info := premium_info,
    credit_verified := external_data.credit_verified,
    external_sources := external_data.external_sources }

/-- `UnderwritingTool._make_decision`: auto-decline short circuit, risk
level classification by score, and the per-level `if`/`elif` decision
policy, with the very-high band split at score 85. -/
def make_decision (a : ApplicantData) (risk_score : ℚ)
    (rule_results : RuleResults) (_ml_results : MLResults)
    (external_data : ExternalData) : DecisionResult :=
  if rule_results.auto_decline then
    create_decline_decision a risk_score rule_results
  else
    let risk_level : RiskLevel :=
      if risk_score < 30 then RiskLevel.low
      else if risk_score < 50 then RiskLevel.medium
      else if risk_score < 70 then RiskLevel.high
      else RiskLevel.very_high
    let premium := calculate_premium a risk_score rule_results.risk_factors
    if risk_level = RiskLevel.low then
      finishDecision UnderwritingDecision.approved risk_level risk_score
        ["Low risk profile", "Good credit history", "Clean claims record"]
        ["Standard policy terms apply"] [] (some premium) external_data
    else if risk_level = RiskLevel.medium then
      finishDecision UnderwritingDecision.approved risk_level risk_score
        (["Moderate risk profile", "Acceptable underwriting criteria met"] ++
          (if 0 < rule_results.risk_factors.length then
            ["Some risk factors present"] else []))
        ["Standard policy terms apply", "Annual policy review required"]
        [] (some premium) external_data
    else if risk_level = RiskLevel.high then
      finishDecision UnderwritingDecision.approved_with_conditions risk_level
        risk_score
        ["High risk profile",
         "Risk factors identified: " ++ toString rule_results.risk_factors.length]
        ["Higher deductible required", "Six-month policy review",
         "No coverage for first 30 days",
         "Additional documentation required annually"]
        (determine_exclusions a rule_results) (some premium) external_data
    else if 85 < risk_score then
      create_decline_decision a risk_score rule_results
    else
      finishDecision UnderwritingDecision.refer_to_manual_review risk_level
        risk_score
        ["Very high risk profile", "Requires senior underwriter approval",
         "Additional information needed"]
        ["Manual underwriting review required"] [] none external_data

/-- Steps 2-5 of `UnderwritingTool._run` on an already validated
applicant: rule engine, risk score, decision (the external verification
outcome and classifier output are passed in, since their randomness and
process state are inputs of the model). -/
def runUnderwriting (a : ApplicantData) (external_data : ExternalData)
    (ml_results : MLResults) : DecisionResult :=
  let rule_results := evaluate_rules a external_data
  let risk_score := calculate_risk_score a rule_results ml_results
  make_decision a risk_score rule_results ml_results external_data

-- ==================== Input validation model ====================

/-- Raw (not yet validated) claims history: integer fields may be
negative, violating the declared `ge=0` constraints. -/
structure RawClaimsHistory where
  total_claims : ℤ
  claims_last_3_years : ℤ
  total_claimed_amount : ℚ
  fraud_indicators : Bool
deriving DecidableEq, Repr

/-- Raw driving record. -/
structure RawDrivingRecord where
  years_licensed : ℤ
  accidents_last_5_years : ℤ
  violations_last_3_years : ℤ
  dui_history : Bool
  license_suspended : Bool
deriving DecidableEq, Repr

/-- Raw property info. -/
structure RawPropertyInfo where
  property_age : ℤ
  construction_type : ConstructionType
  security_system : Bool
  fire_protection_cls : ℤ
  flood_zone : Bool
deriving DecidableEq, Repr

/-- Raw applicant record before pydantic validation. -/
structure RawApplicant where
  applicant_id : String
  name : String
  age : ℤ
  credit_score : ℤ
  annual_income : ℚ
  employment_status : EmploymentStatus
  insurance_type : InsuranceType
  coverage_amount : ℚ
  claims_history : RawClaimsHistory
  driving_record : Option RawDrivingRecord
  property_info : Option RawPropertyInfo
  smoker : Option Bool
  pre_existing_conditions : Option Bool
deriving DecidableEq, Repr

/-- All field-constraint violations of a raw record, in field declaration
order, as pydantic v2 collects them in its field-validation pass.  The
message texts abbreviate the pydantic error strings; one message stands
for each declared field constraint that fails. -/
def fieldViolations (r : RawApplicant) : List String :=
  (if r.name.length < 2 then ["name: too short"] else []) ++
  (if r.age < 18 ∨ 100 < r.age then ["age: out of range"] else []) ++
  (if r.credit_score < 300 ∨ 850 < r.credit_score then
    ["credit_score: out of range"] else []) ++
  (if r.annual_income < 0 then ["annual_income: negative"] else []) ++
  (if r.coverage_amount < 0 then ["coverage_amount: negative"] else []) ++
  (if r.claims_history.total_claims < 0 then
    ["claims_history.total_claims: negative"] else []) ++
  (if r.claims_history.claims_last_3_years < 0 then
    ["claims_history.claims_last_3_years: negative"] else []) ++
  (if r.claims_history.total_claimed_amount < 0 then
    ["claims_history.total_claimed_amount: negative"] else []) ++
  (match r.driving_record with
   | none => []
   | some d =>
     (if d.years_licensed < 0 then
       ["driving_record.years_licensed: negative"] else []) ++
     (if d.accidents_last_5_years < 0 then
       ["driving_record.accidents_last_5_years: negative"] else []) ++
     (if d.violations_last_3_years < 0 then
       ["driving_record.violations_last_3_years: negative"] else [])) ++
  (match r.property_info with
   | none => []
   | some p =>
     (if p.property_age < 0 then
       ["property_info.property_age: negative"] else []) ++
     (if p.fire_protection_cls < 1 ∨ 10 < p.fire_protection_cls then
       ["property_info.fire_protection_cls: out of range"] else []))

/-- The `.value` string of an insurance type. -/
def insuranceTypeValue : InsuranceType → String
  | InsuranceType.auto => "auto"
  | InsuranceType.home => "home"
  | InsuranceType.life => "life"
  | InsuranceType.health => "health"

/-- `ApplicantData.validate_type_specific_data`: the after-model
validator raises on the first failing type-specific presence check
(`none` when all pass). -/
def modelValidatorError (r : RawApplicant) : Option String :=
  if r.insurance_type = InsuranceType.auto ∧ r.driving_record = none then
    some "Driving record is required for auto insurance"
  else if r.insurance_type = InsuranceType.home ∧ r.property_info = none then
    some "Property information is required for home insurance"
  else if (r.insurance_type = InsuranceType.health ∨
      r.insurance_type = InsuranceType.life) ∧ r.smoker = none then
    some ("Smoker status is required for " ++
      insuranceTypeValue r.insurance_type ++ " insurance")
  else none

/-- The validated profile built from a raw record whose constraints all
hold (integer counts become naturals). -/
def buildProfile (r : RawApplicant) : ApplicantData :=
  { applicant_id := r.applicant_id, name := r.name,
    age := r.age.toNat, credit_score := r.credit_score,
    annual_income := r.annual_income,
    employment_status := r.employment_status,
    insurance_type := r.insurance_type,
    coverage_amount := r.coverage_amount,
    claims_history :=
      { total_claims := r.claims_history.total_claims.toNat,
        claims_last_3_years := r.claims_history.claims_last_3_years.toNat,
        total_claimed_amount := r.claims_history.total_claimed_amount,
        fraud_indicators := r.claims_history.fraud_indicators },
    driving_record := r.driving_record.map (fun d =>
      { years_licensed := d.years_licensed.toNat,
        accidents_last_5_years := d.accidents_last_5_years.toNat,
        violations_last_3_years := d.violations_last_3_years.toNat,
        dui_history := d.dui_history,
        license_suspended := d.license_suspended }),
    property_info := r.property_info.map (fun p =>
      { property_age := p.property_age.toNat,
        construction_type := p.construction_type,
        security_system := p.security_system,
        fire_protection_cls := p.fire_protection_cls.toNat,
        flood_zone := p.flood_zone }),
    smoker := r.smoker,
    pre_existing_conditions := r.pre_existing_conditions }

/-- `ApplicantData(**applicant_data_dict)` under pydantic v2 semantics:
the field-validation pass collects every field-constraint violation; the
after-model validator `validate_type_specific_data` runs only when that
pass produced no error, and raises at its first failing check. -/
def validateApplicant (r : RawApplicant) : Except (List String) ApplicantData :=
  match fieldViolations r with
  | [] =>
    match modelValidatorError r with
    | some e => Except.error [e]
    | none => Except.ok (buildProfile r)
  | errs => Except.error errs

/-- The error list of a validation run, `none` on success. -/
def validationErrorList (r : RawApplicant) : Option (List String) :=
  match validateApplicant r with
  | Except.error errs => some errs
  | Except.ok _ => none

-- ==================== Spec-side decision policy ====================

/-- Risk-level classification exactly as the spec words it: score < 30
low, [30,50) medium, [50,70) high, at least 70 very high. -/
def specRiskLevel (s : ℚ) : RiskLevel :=
  if s < 30 then RiskLevel.low
  else if s < 50 then RiskLevel.medium
  else if s < 70 then RiskLevel.high
  else RiskLevel.very_high

/-- Final decision exactly as the spec words it: auto-decline forces
declined; low and medium approve; high approves with conditions; very
high declines above score 85, else refers to manual review. -/
def specDecision (auto_decline : Bool) (s : ℚ) : UnderwritingDecision :=
  if auto_decline then UnderwritingDecision.declined
  else
    match specRiskLevel s with
    | RiskLevel.low => UnderwritingDecision.approved
    | RiskLevel.medium => UnderwritingDecision.approved
    | RiskLevel.high => UnderwritingDecision.approved_with_conditions
    | RiskLevel.very_high =>
      if 85 < s then UnderwritingDecision.declined
      else UnderwritingDecision.refer_to_manual_review

-- ==================== Concrete inputs for witnesses ====================

/-- A clean claims history. -/
def exClaims : ClaimsHistory :=
  { total_claims := 0, claims_last_3_years := 0,
    total_claimed_amount := 0, fraud_indicators := false }

/-- A valid health-insurance applicant. -/
def exApplicant : ApplicantData :=
  { applicant_id := "APP-1", name := "Jo", age := 35, credit_score := 750,
    annual_income := 0, employment_status := EmploymentStatus.employed,
    insurance_type := InsuranceType.health, coverage_amount := 5000,
    claims_history := exClaims, driving_record := none,
    property_info := none, smoker := some false,
    pre_existing_conditions := some false }

/-- The same applicant with fraud indicators set. -/
def exFraudApplicant : ApplicantData :=
  { exApplicant with claims_history := { exClaims with fraud_indicators := true } }

/-- The same applicant with a self-reported credit score of 700. -/
def exC10Applicant : ApplicantData := { exApplicant with credit_score := 700 }

/-- External data with no successful verification. -/
def exExternal : ExternalData :=
  { credit_verified := false, driving_verified := false, credit_data := none,
    dmv_data := none, external_sources := [] }

/-- External data where verification succeeded and overrode the credit
score down to 500. -/
def exOverrideExternal : ExternalData :=
  { credit_verified := true, driving_verified := false,
    credit_data := some
      { status := "success", verified := true, reported_score := some 700,
        actual_score := some 500, score_difference := some 200,
        source := some "Experian (Simulated)", fallback := none },
    dmv_data := none, external_sources := ["Experian (Simulated)"] }

/-- External data where verification succeeded (no override example). -/
def exVerifiedExternal : ExternalData :=
  { credit_verified := true, driving_verified := false,
    credit_data := some
      { status := "success", verified := true, reported_score := some 750,
        actual_score := some 760, score_difference := some 10,
        source := some "Experian (Simulated)", fallback := none },
    dmv_data := none, external_sources := ["Experian (Simulated)"] }

/-- Classifier unavailable. -/
def exML : MLResults := { ml_available := false, prediction := 0 }

/-- A rule result with nothing triggered. -/
def exRules : RuleResults :=
  { rules_passed := [], rules_failed := [], risk_factors := [],
    auto_decline := false, total_rules_evaluated := 0 }

/-- A rule result with the fraud auto-decline triggered. -/
def exRulesAD : RuleResults :=
  { rules_passed := [],
    rules_failed := ["Fraud indicators present in claims history"],
    risk_factors := [], auto_decline := true, total_rules_evaluated := 1 }

/-- A raw record that violates both a field constraint (age 10) and the
type-specific presence constraint (auto insurance without a driving
record). -/
def badRaw : RawApplicant :=
  { applicant_id := "APP-2", name := "Jo", age := 10, credit_score := 700,
    annual_income := 0, employment_status := EmploymentStatus.employed,
    insurance_type := InsuranceType.auto, coverage_amount := 0,
    claims_history :=
      { total_claims := 0, claims_last_3_years := 0,
        total_claimed_amount := 0, fraud_indicators := false },
    driving_record := none, property_info := none, smoker := none,
    pre_existing_conditions := none }

-- ==================== Theorems ====================

/-- C4: for every valid applicant profile, every rule-engine output and
every classifier output, the computed risk score lies in [0, 100]. -/
theorem risk_score_in_range (a : ApplicantData) (r : RuleResults)
    (m : MLResults) (ha : a.Valid) :
    0 ≤ calculate_risk_score a r m ∧ calculate_risk_score a r m ≤ 100 := by
  unfold calculate_risk_score
  exact ⟨le_min (by norm_num) (le_max_left _ _), min_le_left _ _⟩

/-- Witness for `risk_score_in_range` at a concrete valid applicant. -/
theorem risk_score_in_range_witness :
    exApplicant.Valid ∧
    (0 ≤ calculate_risk_score exApplicant exRules exML ∧
      calculate_risk_score exApplicant exRules exML ≤ 100) :=
  ⟨by decide, risk_score_in_range exApplicant exRules exML (by decide)⟩

/-- C2: a valid applicant profile whose claims history carries fraud
indicators is declined by the pipeline, whatever the external data and
classifier output. -/
theorem fraud_indicators_force_decline (a : ApplicantData)
    (e : ExternalData) (m : MLResults) (ha : a.Valid)
    (hf : a.claims_history.fraud_indicators = true) :
    (runUnderwriting a e m).decision = UnderwritingDecision.declined := by
  have had : (evaluate_rules a e).auto_decline = true := by
    unfold evaluate_rules
    simp [hf]
  unfold runUnderwriting make_decision
  simp [had, create_decline_decision]

/-- Witness for `fraud_indicators_force_decline` at a concrete valid
fraud-flagged applicant. -/
theorem fraud_indicators_force_decline_witness :
    exFraudApplicant.Valid ∧
    exFraudApplicant.claims_history.fraud_indicators = true ∧
    (runUnderwriting exFraudApplicant exExternal exML).decision =
      UnderwritingDecision.declined :=
  ⟨by decide, by decide,
    fraud_indicators_force_decline exFraudApplicant exExternal exML
      (by decide) (by decide)⟩

/-- C8: the `approved` boolean of the decision record holds exactly when
the decision is `approved` or `approved_with_conditions`. -/
theorem approved_iff_approving_decision (a : ApplicantData) (s : ℚ)
    (r : RuleResults) (m : MLResults) (e : ExternalData) (ha : a.Valid) :
    (make_decision a s r m e).approved = true ↔
      ((make_decision a s r m e).decision = UnderwritingDecision.approved ∨
       (make_decision a s r m e).decision =
         UnderwritingDecision.approved_with_conditions) := by
  unfold make_decision
  split_ifs <;> simp [finishDecision, create_decline_decision, approvedOf]

/-- Witness for `approved_iff_approving_decision` at a concrete input. -/
theorem approved_iff_approving_decision_witness :
    exApplicant.Valid ∧
    ((make_decision exApplicant 20 exRules exML exExternal).approved = true ↔
      ((make_decision exApplicant 20 exRules exML exExternal).decision =
         UnderwritingDecision.approved ∨
       (make_decision exApplicant 20 exRules exML exExternal).decision =
         UnderwritingDecision.approved_with_conditions)) :=
  ⟨by decide, approved_iff_approving_decision exApplicant 20 exRules exML
    exExternal (by decide)⟩

/-- C1: the decision composer maps the rule-engine output and risk score
to the final decision exactly as the spec states it (`specDecision`,
`specRiskLevel` transcribe the spec text): auto-decline gives declined;
otherwise score < 30 is low/approved, [30,50) medium/approved, [50,70)
high/approved-with-conditions, and at least 70 very high, declined above
85 and referred to manual review otherwise. -/
theorem decision_composer_refines_spec (a : ApplicantData) (s : ℚ)
    (r : RuleResults) (m : MLResults) (e : ExternalData) (ha : a.Valid) :
    (make_decision a s r m e).decision = specDecision r.auto_decline s ∧
    (r.auto_decline = false →
      (make_decision a s r m e).risk_level = specRiskLevel s) := by
  cases hr : r.auto_decline
  case false =>
    by_cases h30 : s < 30
    · simp [make_decision, specDecision, specRiskLevel, hr, h30, finishDecision]
    · by_cases h50 : s < 50
      · simp [make_decision, specDecision, specRiskLevel, hr, h30, h50,
          finishDecision]
      · by_cases h70 : s < 70
        · simp [make_decision, specDecision, specRiskLevel, hr, h30, h50, h70,
            finishDecision]
        · by_cases h85 : 85 < s
          · simp [make_decision, specDecision, specRiskLevel, hr, h30, h50,
              h70, h85, create_decline_decision]
          · simp [make_decision, specDecision, specRiskLevel, hr, h30, h50,
              h70, h85, finishDecision]
  case true =>
    simp [make_decision, specDecision, hr, create_decline_decision]

/-- Witness for `decision_composer_refines_spec` at a concrete input. -/
theorem decision_composer_refines_spec_witness :
    exApplicant.Valid ∧
    ((make_decision exApplicant 40 exRules exML exExternal).decision =
      specDecision exRules.auto_decline 40 ∧
     (exRules.auto_decline = false →
      (make_decision exApplicant 40 exRules exML exExternal).risk_level =
        specRiskLevel 40)) :=
  ⟨by decide, decision_composer_refines_spec exApplicant 40 exRules exML
    exExternal (by decide)⟩

/-- C3: whenever the composed decision is declined or referred to manual
review, the decision record carries no premium information. -/
theorem no_premium_on_decline_or_referral (a : ApplicantData) (s : ℚ)
    (r : RuleResults) (m : MLResults) (e : ExternalData) (ha : a.Valid)
    (h : (make_decision a s r m e).decision = UnderwritingDecision.declined ∨
      (make_decision a s r m e).decision =
        UnderwritingDecision.refer_to_manual_review) :
    (make_decision a s r m e).premium_info = none := by
  unfold make_decision at h ⊢
  split_ifs at h ⊢ <;>
    simp_all [finishDecision, create_decline_decision]

/-- Witness for `no_premium_on_decline_or_referral` at a concrete
referred decision. -/
theorem no_premium_on_decline_or_referral_witness :
    exApplicant.Valid ∧
    (make_decision exApplicant 75 exRules exML exExternal).decision =
      UnderwritingDecision.refer_to_manual_review ∧
    (make_decision exApplicant 75 exRules exML exExternal).premium_info = none :=
  ⟨by decide, by decide,
    no_premium_on_decline_or_referral exApplicant 75 exRules exML exExternal
      (by decide) (Or.inr (by decide))⟩

/-- C9: a decline produced by the auto-decline path or by the score
above 85 path always reports risk level very high, credit not verified
and an empty external-sources list, whatever the actual score and
external verification outcome. -/
theorem decline_record_fixed_fields (a : ApplicantData) (s : ℚ)
    (r : RuleResults) (m : MLResults) (e : ExternalData) (ha : a.Valid)
    (h : r.auto_decline = true ∨ (r.auto_decline = false ∧ 85 < s)) :
    (make_decision a s r m e).decision = UnderwritingDecision.declined ∧
    (make_decision a s r m e).risk_level = RiskLevel.very_high ∧
    (make_decision a s r m e).credit_verified = false ∧
    (make_decision a s r m e).external_sources = [] := by
  unfold make_decision
  rcases h with h | ⟨h, hs⟩
  · simp [h, create_decline_decision]
  · have h30 : ¬ s < 30 := by linarith
    have h50 : ¬ s < 50 := by linarith
    have h70 : ¬ s < 70 := by linarith
    simp [h, h30, h50, h70, hs, create_decline_decision]

/-- Witness for `decline_record_fixed_fields`: auto-decline with external
data whose verification succeeded, still reported unverified. -/
theorem decline_record_fixed_fields_witness :
    exApplicant.Valid ∧
    exVerifiedExternal.credit_verified = true ∧
    ((make_decision exApplicant 10 exRulesAD exML exVerifiedExternal).decision =
      UnderwritingDecision.declined ∧
     (make_decision exApplicant 10 exRulesAD exML exVerifiedExternal).risk_level =
      RiskLevel.very_high ∧
     (make_decision exApplicant 10 exRulesAD exML exVerifiedExternal).credit_verified =
      false ∧
     (make_decision exApplicant 10 exRulesAD exML exVerifiedExternal).external_sources =
      []) :=
  ⟨by decide, by decide,
    decline_record_fixed_fields exApplicant 10 exRulesAD exML
      exVerifiedExternal (by decide) (Or.inl (by decide))⟩

/-- C5: for a reported score in [300, 850] and any variance the simulated
bureau may draw, the successful verification returns an actual score
within 20 points of the reported one and inside [300, 850]; the failure
path returns verified false with the self-reported-score fallback note,
and the pipeline then keeps the self-reported score. -/
theorem credit_verification_bounds (reported v : ℤ) (a : ApplicantData)
    (dmvF : Bool) (extra : ℕ) (h1 : 300 ≤ reported) (h2 : reported ≤ 850)
    (hv : DrawableVariance v) :
    ((verify_credit_score reported v false).verified = true ∧
      ∃ s, (verify_credit_score reported v false).actual_score = some s ∧
        |s - reported| ≤ 20 ∧ 300 ≤ s ∧ s ≤ 850) ∧
    ((verify_credit_score reported v true).verified = false ∧
      (verify_credit_score reported v true).fallback =
        some "Using self-reported score" ∧
      effectiveCreditScore a (verify_external_data a v true dmvF extra) =
        a.credit_score) := by
  obtain ⟨hv1, hv2⟩ := hv
  refine ⟨⟨rfl, max 300 (min 850 (reported + v)), rfl, ?_, le_max_left _ _, ?_⟩,
    rfl, rfl, ?_⟩
  · rw [abs_le]
    constructor
    · have hlo : reported - 20 ≤ min 850 (reported + v) :=
        le_min (by linarith) (by linarith)
      have := le_trans hlo (le_max_right 300 (min 850 (reported + v)))
      linarith
    · have hhi : max 300 (min 850 (reported + v)) ≤ reported + 20 :=
        max_le (by linarith) (le_trans (min_le_right _ _) (by linarith))
      linarith
  · exact max_le (by linarith) (min_le_left _ _)
  · have hcv : (verify_external_data a v true dmvF extra).credit_verified =
        false := by
      unfold verify_external_data verify_credit_score
      split_ifs <;> simp_all
    unfold effectiveCreditScore
    rw [hcv]
    simp

/-- Witness for `credit_verification_bounds` at reported score 700 and
variance 15. -/
theorem credit_verification_bounds_witness :
    ((300 : ℤ) ≤ 700 ∧ (700 : ℤ) ≤ 850 ∧ DrawableVariance 15) ∧
    (((verify_credit_score 700 15 false).verified = true ∧
      ∃ s, (verify_credit_score 700 15 false).actual_score = some s ∧
        |s - 700| ≤ 20 ∧ 300 ≤ s ∧ s ≤ 850) ∧
     ((verify_credit_score 700 15 true).verified = false ∧
      (verify_credit_score 700 15 true).fallback =
        some "Using self-reported score" ∧
      effectiveCreditScore exApplicant
        (verify_external_data exApplicant 15 true false 0) =
        exApplicant.credit_score)) :=
  ⟨⟨by decide, by decide, ⟨by decide, by decide⟩⟩,
    credit_verification_bounds 700 15 exApplicant false 0 (by decide)
      (by decide) ⟨by decide, by decide⟩⟩

/-- C10: the credit component of the risk score is a function of the
self-reported credit score alone: two pipeline evaluations that differ
only in the external data (hence in any verified/overridden score) have
equal credit components, even though the overridden score does feed the
credit rule of the rule engine (witnessed by an override to 500 flipping the
auto-decline flag that an unverified run leaves clear). -/
theorem credit_component_noninterference :
    (∀ (a : ApplicantData) (m : MLResults) (e1 e2 : ExternalData), a.Valid →
      (riskScoreParts a (evaluate_rules a e1) m).credit =
        (riskScoreParts a (evaluate_rules a e2) m).credit) ∧
    effectiveCreditScore exC10Applicant exOverrideExternal ≠
      effectiveCreditScore exC10Applicant exExternal ∧
    (evaluate_rules exC10Applicant exOverrideExternal).auto_decline = true ∧
    (evaluate_rules exC10Applicant exExternal).auto_decline = false :=
  ⟨fun _ _ _ _ _ => rfl, by decide, by decide, by decide⟩

/-- Witness for `credit_component_noninterference` at a concrete valid
applicant and two different external-data outcomes. -/
theorem credit_component_noninterference_witness :
    exC10Applicant.Valid ∧
    (riskScoreParts exC10Applicant
        (evaluate_rules exC10Applicant exOverrideExternal) exML).credit =
      (riskScoreParts exC10Applicant
        (evaluate_rules exC10Applicant exExternal) exML).credit :=
  ⟨by decide,
    credit_component_noninterference.1 exC10Applicant exML exOverrideExternal
      exExternal (by decide)⟩

/-- C7 refuted: no single risk-factor string is ever charged the
surcharges of more than one keyword category — the if/elif/elif chain
of the source stops at the first matching category, so even a
factor matching several categories contributes only one surcharge, never
their sum (shown here at base premium 150). -/
theorem premium_surcharge_double_count_refuted :
    ¬ ∃ (factor : String),
      2 ≤ (categorySurchargesMatched 150 factor).length ∧
      surchargeOfFactor 150 factor =
        (categorySurchargesMatched 150 factor).sum := by
  rintro ⟨f, hlen, heq⟩
  unfold categorySurchargesMatched at hlen heq
  unfold surchargeOfFactor at heq
  cases h1 : matchesDuiFraud f <;> cases h2 : matchesAccidentClaims f <;>
    cases h3 : matchesCredit f <;>
    simp only [h1, h2, h3, if_true, if_false, Bool.false_eq_true,
      List.append_nil, List.nil_append, List.append_assoc, List.length_append,
      List.length_cons, List.length_nil, List.sum_cons, List.sum_nil,
      List.cons_append, if_neg, ite_true, ite_false] at hlen heq <;>
    norm_num at hlen heq

/-- C7 amended: each risk factor contributes exactly the surcharge of the
first keyword category it matches (or nothing); in particular the
additional premium for a single-factor list is that one surcharge. -/
theorem premium_surcharge_first_match_only (a : ApplicantData) (s : ℚ)
    (b : ℚ) (f : String) :
    surchargeOfFactor b f = (categorySurchargesMatched b f).headD 0 ∧
    (calculate_premium a s [f]).additional_premium =
      round2 (surchargeOfFactor (BASE_PREMIUMS a.insurance_type) f) := by
  constructor
  · unfold surchargeOfFactor categorySurchargesMatched
    cases h1 : matchesDuiFraud f <;> cases h2 : matchesAccidentClaims f <;>
      cases h3 : matchesCredit f <;> simp [h1, h2, h3]
  · unfold calculate_premium
    simp [List.foldl]

/-- C6 refuted on the mixed-violation record `badRaw` (age 10, auto
insurance, no driving record): validation fails reporting only the age
violation, although the type-specific driving-record constraint is also
violated — the failure does not enumerate every violated constraint. -/
theorem validation_misses_masked_violation :
    validationErrorList badRaw = some ["age: out of range"] ∧
    modelValidatorError badRaw =
      some "Driving record is required for auto insurance" ∧
    "Driving record is required for auto insurance" ∉
      ["age: out of range"] :=
  ⟨by decide, by decide, by decide⟩

/-- C6 amended: when field-range constraints are violated, validation
fails enumerating all of them at once (each violated field constraint
contributes its entry); the type-specific presence constraints are
checked only after every field constraint passes, so a record violating
both kinds reports only the field violations; and no profile is produced
unless both phases pass. -/
theorem validation_enumerates_field_violations (r : RawApplicant) :
    (fieldViolations r ≠ [] →
      validateApplicant r = Except.error (fieldViolations r)) ∧
    (∀ p, validateApplicant r = Except.ok p →
      fieldViolations r = [] ∧ modelValidatorError r = none ∧
        p = buildProfile r) ∧
    ((r.age < 18 ∨ 100 < r.age) → "age: out of range" ∈ fieldViolations r) ∧
    ((r.credit_score < 300 ∨ 850 < r.credit_score) →
      "credit_score: out of range" ∈ fieldViolations r) ∧
    (r.name.length < 2 → "name: too short" ∈ fieldViolations r) ∧
    (r.annual_income < 0 → "annual_income: negative" ∈ fieldViolations r) ∧
    (r.coverage_amount < 0 → "coverage_amount: negative" ∈ fieldViolations r) := by
  refine ⟨?_, ?_, ?_, ?_, ?_, ?_, ?_⟩
  · intro hne
    unfold validateApplicant
    cases h : fieldViolations r with
    | nil => exact absurd h hne
    | cons x xs => simp
  · intro p hp
    unfold validateApplicant at hp
    cases h : fieldViolations r with
    | nil =>
      rw [h] at hp
      cases hm : modelValidatorError r with
      | some e => rw [hm] at hp; exact absurd hp (by simp)
      | none =>
        rw [hm] at hp
        simp only [Except.ok.injEq] at hp
        exact ⟨rfl, rfl, hp.symm⟩
    | cons x xs => rw [h] at hp; exact absurd hp (by simp)
  · intro h
    unfold fieldViolations
    simp [if_pos h, List.mem_append]
  · intro h
    unfold fieldViolations
    simp [if_pos h, List.mem_append]
  · intro h
    unfold fieldViolations
    simp [if_pos h, List.mem_append]
  · intro h
    unfold fieldViolations
    simp [if_pos h, List.mem_append]
  · intro h
    unfold fieldViolations
    simp [if_pos h, List.mem_append]

/-- Witness for `validation_enumerates_field_violations` at the concrete
record `badRaw`. -/
theorem validation_enumerates_field_violations_witness :
    (fieldViolations badRaw ≠ [] ∧
      validateApplicant badRaw = Except.error (fieldViolations badRaw)) ∧
    (badRaw.age < 18 ∨ 100 < badRaw.age) ∧
    "age: out of range" ∈ fieldViolations badRaw :=
  ⟨⟨by decide, (validation_enumerates_field_violations badRaw).1 (by decide)⟩,
    Or.inl (by decide),
    (validation_enumerates_field_violations badRaw).2.2.1 (Or.inl (by decide))⟩
